import Mathlib

/-!
Verification of the documents-chat application (`src/app.py`) against its
natural-language specification.

The application is shallowly embedded: external collaborators (the four
format-specific extractors, bcrypt, the embedding/index build, the
generative model) are oracle function parameters; database tables are
lists of records; Streamlit session state is an explicit structure whose
`Option`-wrapped fields model key presence/absence in `st.session_state`.
-/

/-- A `langchain` Document: extracted text plus source metadata
(app.py line 140 constructs one with `page_content` and a `source`). -/
structure TextUnit where
  page_content : String
  source : String
deriving DecidableEq, Repr

/-- The external extraction collaborators of the ingestion loop
(app.py lines 127-142): `PyMuPDFLoader(...).load()`,
`CSVLoader(...).load()`, `UnstructuredWordDocumentLoader(...).load()` and
`pd.read_excel(...).to_string(index=False)`.  Each is keyed by the
uploaded file's name (which stands for its content) and either returns its
extraction result or fails (raises). -/
structure Extractors where
  loadPdf : String → Except String (List TextUnit)
  loadCsv : String → Except String (List TextUnit)
  loadDocx : String → Except String (List TextUnit)
  readExcel : String → Except String String

/-- An uploaded file as seen by the ingestion loop: only its name is
inspected (`uploaded_file.name`); the bytes are consumed by the external
extractors. -/
structure UploadedFile where
  name : String
deriving DecidableEq, Repr

/-- Python's `str.split(".")` over a character list: splits at every dot,
keeping empty segments, and yields one segment even for the empty input —
so the result is never the empty list, matching `"x".split(".")`. -/
def splitOnDot : List Char → List (List Char)
  | [] => [[]]
  | c :: cs =>
      if c = '.' then [] :: splitOnDot cs
      else
        match splitOnDot cs with
        | [] => [[c]]
        | p :: ps => (c :: p) :: ps

/-- `uploaded_file.name.split(".")[-1].lower()` (app.py line 120). -/
def extOf (name : String) : String :=
  String.mk (((splitOnDot name.data).getLastD []).map Char.toLower)

/-- The accumulators of the ingestion loop (app.py lines 117-118) plus the
errors reported via `st.error` (line 142). -/
structure IngestState where
  docs : List TextUnit
  filenames : List String
  errors : List String
deriving DecidableEq, Repr

/-- One iteration of the ingestion loop (app.py lines 119-142): the
filename is appended unconditionally (line 121), then extraction is
dispatched on the extension.  Only the `xlsx` branch is wrapped in
try/except (lines 137-142): its failure is recorded as an error and the
loop continues; a failure of the PDF/CSV/DOCX loader propagates as an
unhandled exception, modelled as `Except.error`. -/
def ingestStep (E : Extractors) (s : IngestState) (f : UploadedFile) :
    Except String IngestState :=
  let ext := extOf f.name
  let s := { s with filenames := s.filenames ++ [f.name] }
  if ext = "pdf" then
    match E.loadPdf f.name with
    | .ok units => .ok { s with docs := s.docs ++ units }
    | .error e => .error e
  else if ext = "csv" then
    match E.loadCsv f.name with
    | .ok units => .ok { s with docs := s.docs ++ units }
    | .error e => .error e
  else if ext = "docx" then
    match E.loadDocx f.name with
    | .ok units => .ok { s with docs := s.docs ++ units }
    | .error e => .error e
  else if ext = "xlsx" then
    match E.readExcel f.name with
    | .ok content => .ok { s with docs := s.docs ++ [⟨content, f.name⟩] }
    | .error e =>
        .ok { s with errors := s.errors ++ ["Error reading Excel: " ++ e] }
  else
    .ok s

/-- The ingestion loop over the batch (app.py lines 119-142), threading the
accumulators; an unhandled exception aborts the whole batch. -/
def ingestLoop (E : Extractors) (s : IngestState) :
    List UploadedFile → Except String IngestState
  | [] => .ok s
  | f :: fs =>
      match ingestStep E s f with
      | .ok s' => ingestLoop E s' fs
      | .error e => .error e

/-- Ingestion of an uploaded batch (app.py lines 116-142), starting from
empty accumulators `docs = []`, `filenames = []`. -/
def ingest (E : Extractors) (files : List UploadedFile) :
    Except String IngestState :=
  ingestLoop E ⟨[], [], []⟩ files

/-- A role-tagged transcript message
(app.py lines 168, 177: dicts with "role" and "content"). -/
structure Message where
  role : String
  content : String
deriving DecidableEq, Repr

/-- A row of the `queries` table (app.py lines 40-47): question, answer,
timestamp (defaulted to the current time on insert) and owning user id. -/
structure QueryRec where
  question : String
  answer : String
  timestamp : Nat
  user_id : Nat
deriving DecidableEq, Repr

/-- The logged-in part of the Streamlit session state (app.py lines
99-104): the current `RetrievalQA` chain (a handle, `none` = untrained),
the transcript, and the trained-file list. -/
structure ChatSession where
  qa : Option Nat
  messages : List Message
  uploaded_files_info : List String
deriving DecidableEq, Repr

/-- The Train button handler (app.py lines 144-154).  `build` stands for
the external `OpenAIEmbeddings` / `FAISS.from_documents` /
`RetrievalQA.from_chain_type` pipeline, returning a fresh index handle or
raising.  On success `qa` and `uploaded_files_info` are replaced; on
failure the except-branch shows `"Embedding error: ..."` and no session
field is assigned. -/
def trainButton (build : List TextUnit → Except String Nat)
    (docs : List TextUnit) (filenames : List String) (st : ChatSession) :
    ChatSession × Option String :=
  match build docs with
  | .ok idx =>
      ({ st with qa := some idx, uploaded_files_info := filenames }, none)
  | .error e => (st, some ("Embedding error: " ++ e))

/-- The Chat tab handler (app.py lines 158-189).  `gen` stands for the
external `st.session_state.qa.run(prompt)` call.  The result is the new
session, the new `queries` table, and the user-visible error/notice text
if any.  With `qa` falsy (untrained) the tab only shows the train-first
notice (line 189).  With a truthy prompt, the user message is appended
(line 168) before the try block; on generation success the assistant
message is appended and a `Query` row is inserted (lines 177-185); on
failure only the error is shown (line 187). -/
def chatTab (gen : String → Except String String) (userId : Nat) (now : Nat)
    (st : ChatSession) (log : List QueryRec) (promptOpt : Option String) :
    ChatSession × List QueryRec × Option String :=
  match st.qa with
  | none => (st, log, some "Please train the documents first in the 'Train' tab.")
  | some _ =>
      match promptOpt with
      | none => (st, log, none)
      | some prompt =>
          if prompt = "" then (st, log, none)
          else
            let st1 := { st with messages := st.messages ++ [⟨"user", prompt⟩] }
            match gen prompt with
            | .ok response =>
                ({ st1 with
                    messages := st1.messages ++ [⟨"assistant", response⟩] },
                 log ++ [⟨prompt, response, now, userId⟩], none)
            | .error e => (st1, log, some ("Failed to respond: " ++ e))

/-- The full per-browser `st.session_state` store (app.py lines 72-104).
Each field is `none` when its key is absent from the store; `qa`'s inner
`Option` is the stored value itself (which may be Python `None`). -/
structure AppSession where
  user : Option Nat
  qa : Option (Option Nat)
  messages : Option (List Message)
  uploaded_files_info : Option (List String)
deriving DecidableEq, Repr

/-- The Logout button handler (app.py lines 94-96):
`del st.session_state.user` followed by a rerun — only the `user` key is
removed. -/
def logout (s : AppSession) : AppSession :=
  { s with user := none }

/-- The session-state default initialisation (app.py lines 98-104): when a
user is logged in, each of the three keys is set to its default only if it
is absent from the store. -/
def initSessionDefaults (s : AppSession) : AppSession :=
  if s.user.isSome then
    { s with
      qa := some (s.qa.getD none),
      messages := some (s.messages.getD []),
      uploaded_files_info := some (s.uploaded_files_info.getD []) }
  else s

/-- A row of the `users` table (app.py lines 33-38): id, unique username,
stored password hash. -/
structure UserRec where
  id : Nat
  username : String
  password : String
deriving DecidableEq, Repr

/-- Existence check backing the `username` unique constraint
(app.py line 36). -/
def usernameExists (db : List UserRec) (un : String) : Bool :=
  db.any (fun u => u.username = un)

/-- `register_user` (app.py lines 51-56) together with the commit against
the schema's unique constraint on `username` (line 36): the insert of
`User(username, bcrypt.hashpw(password, gensalt()))` commits a new durable
row with a fresh id, or the commit raises on a duplicate username
(surfaced to the caller, app.py lines 87-91).  `hashpw` stands for the
external salted bcrypt hash. -/
def register_user (hashpw : String → String) (db : List UserRec)
    (username password : String) : Except String (List UserRec) :=
  if usernameExists db username then .error "DuplicateUsername"
  else .ok (db ++ [⟨db.length, username, hashpw password⟩])

/-- `authenticate` (app.py lines 58-63): the first user row matching the
username is fetched; the result is that user if it exists and
`bcrypt.checkpw(password, user.password)` holds, and `None` otherwise.
`checkpw` stands for the external bcrypt verification
(supplied password first, stored hash second). -/
def authenticate (checkpw : String → String → Bool) (db : List UserRec)
    (username password : String) : Option UserRec :=
  match (db.filter (fun u => u.username = username)).head? with
  | some user => if checkpw password user.password then some user else none
  | none => none

/-- The `ORDER BY timestamp DESC` relation of the history query
(app.py line 194). -/
def tsDesc (a b : QueryRec) : Prop := b.timestamp ≤ a.timestamp

instance : DecidableRel tsDesc := fun _ _ => Nat.decLe _ _

instance : IsTotal QueryRec tsDesc :=
  ⟨fun a b => Nat.le_total b.timestamp a.timestamp⟩

instance : IsTrans QueryRec tsDesc :=
  ⟨fun _ _ _ h1 h2 => Nat.le_trans h2 h1⟩

/-- The Chat History query (app.py lines 193-194): all `queries` rows of
the logged-in user, ordered by timestamp descending (a stable sort over
the table rows). -/
def history (log : List QueryRec) (uid : Nat) : List QueryRec :=
  List.insertionSort tsDesc (log.filter (fun q => q.user_id = uid))

/-! ## Claim C5 — authenticate -/

/-- C5: `authenticate` returns the matching user exactly when a user with
that username exists (the first such row) and the stored hash verifies
against the supplied password; when the username is absent, and when the
password is wrong, it returns the same outcome `none`, so the two failure
causes are indistinguishable in outcome shape, and it never succeeds for a
non-existent username or a wrong password. -/
theorem authenticate_spec (checkpw : String → String → Bool)
    (db : List UserRec) (un pw : String) :
    (∀ u, authenticate checkpw db un pw = some u ↔
      (db.filter (fun v => v.username = un)).head? = some u ∧
      checkpw pw u.password = true) ∧
    ((∀ v ∈ db, v.username ≠ un) → authenticate checkpw db un pw = none) ∧
    (∀ u, (db.filter (fun v => v.username = un)).head? = some u →
      checkpw pw u.password = false → authenticate checkpw db un pw = none) := by
  refine ⟨fun u => ?_, fun h => ?_, fun u hu hc => ?_⟩
  · unfold authenticate
    cases hh : (db.filter (fun v => v.username = un)).head? with
    | none => simp [hh]
    | some v => cases hcp : checkpw pw v.password <;> simp [hh, hcp] <;> aesop
  · have hnil : db.filter (fun v => v.username = un) = [] := by
      rw [List.filter_eq_nil_iff]
      intro v hv
      simpa using h v hv
    simp [authenticate, hnil]
  · simp [authenticate, hu, hc]

/-- Witness for C5 at a concrete store: the user is returned on a correct
password, and both a missing username and a wrong password yield `none`. -/
theorem authenticate_spec_witness :
    authenticate (fun p s => p ++ "#" = s) [⟨0, "alice", "pw#"⟩] "alice" "pw"
      = some ⟨0, "alice", "pw#"⟩ ∧
    authenticate (fun p s => p ++ "#" = s) [⟨0, "alice", "pw#"⟩] "bob" "pw"
      = none ∧
    authenticate (fun p s => p ++ "#" = s) [⟨0, "alice", "pw#"⟩] "alice" "xx"
      = none := by
  refine ⟨?_, ?_, ?_⟩
  · exact ((authenticate_spec (fun p s => p ++ "#" = s)
      [⟨0, "alice", "pw#"⟩] "alice" "pw").1 ⟨0, "alice", "pw#"⟩).mpr
      (by constructor <;> decide)
  · exact (authenticate_spec (fun p s => p ++ "#" = s)
      [⟨0, "alice", "pw#"⟩] "bob" "pw").2.1 (by decide)
  · exact (authenticate_spec (fun p s => p ++ "#" = s)
      [⟨0, "alice", "pw#"⟩] "alice" "xx").2.2 ⟨0, "alice", "pw#"⟩
      (by decide) (by decide)

/-! ## Claim C7 — untrained chat gate -/

/-- C7: with no index built (`qa` is `None`, hence falsy), the Chat tab
shows the train-first notice, leaves the session and the Query Log
unchanged, and its result does not depend on the generator (or the user or
the clock), i.e. no generation call is made and no Query Log entry is
created. -/
theorem chatTab_untrained (gen gen' : String → Except String String)
    (userId userId' now now' : Nat) (st : ChatSession) (log : List QueryRec)
    (p : Option String) (hqa : st.qa = none) :
    chatTab gen userId now st log p =
      (st, log, some "Please train the documents first in the 'Train' tab.") ∧
    chatTab gen userId now st log p = chatTab gen' userId' now' st log p := by
  constructor <;> simp [chatTab, hqa]

/-- Witness for C7: a concrete untrained session with a pending prompt is
left untouched and gets the notice, for two different generators. -/
theorem chatTab_untrained_witness :
    chatTab (fun _ => Except.ok "yes") 1 5 ⟨none, [], []⟩ [] (some "hi") =
      (⟨none, [], []⟩, [],
       some "Please train the documents first in the 'Train' tab.") ∧
    chatTab (fun _ => Except.ok "yes") 1 5 ⟨none, [], []⟩ [] (some "hi") =
      chatTab (fun _ => Except.error "down") 2 9 ⟨none, [], []⟩ [] (some "hi") :=
  chatTab_untrained (fun _ => Except.ok "yes") (fun _ => Except.error "down")
    1 2 5 9 ⟨none, [], []⟩ [] (some "hi") rfl

/-! ## Claim C8 — registration -/

/-- C8: `register_user` fails with DuplicateUsername when the username
already exists, and otherwise commits a durable row storing the salted
bcrypt hash of the password — never the plaintext (provided hashing is not
the identity on this password); a second registration of the same
username therefore fails. -/
theorem register_user_spec (hashpw : String → String) (db : List UserRec)
    (un pw : String) :
    (usernameExists db un = true →
      register_user hashpw db un pw = .error "DuplicateUsername") ∧
    (usernameExists db un = false →
      register_user hashpw db un pw =
        .ok (db ++ [⟨db.length, un, hashpw pw⟩]) ∧
      (∀ pw2, register_user hashpw (db ++ [⟨db.length, un, hashpw pw⟩]) un pw2 =
        .error "DuplicateUsername") ∧
      (hashpw pw ≠ pw →
        ∀ u ∈ db ++ [(⟨db.length, un, hashpw pw⟩ : UserRec)],
          u.username = un → u.password ≠ pw)) := by
  constructor
  · intro hdup
    simp [register_user, hdup]
  · intro hfree
    refine ⟨by simp [register_user, hfree], fun pw2 => ?_, fun hne u hu hun => ?_⟩
    · have : usernameExists (db ++ [⟨db.length, un, hashpw pw⟩]) un = true := by
        simp [usernameExists]
      simp [register_user, this]
    · rcases List.mem_append.mp hu with hin | hnew
      · exfalso
        have := (List.any_eq_false.mp hfree) u hin
        simp [hun] at this
      · have : u = (⟨db.length, un, hashpw pw⟩ : UserRec) := by simpa using hnew
        rw [this]
        exact hne

/-- Witness for C8: registering "alice" into an empty store succeeds and
stores the hash, and registering "alice" again fails. -/
theorem register_user_spec_witness :
    register_user (fun p => p ++ "#") [] "alice" "pw" =
      .ok [⟨0, "alice", "pw#"⟩] ∧
    register_user (fun p => p ++ "#") [⟨0, "alice", "pw#"⟩] "alice" "pw2" =
      .error "DuplicateUsername" := by
  have h := (register_user_spec (fun p => p ++ "#") [] "alice" "pw").2 (by decide)
  exact ⟨h.1, h.2.1 "pw2"⟩

/-! ## Claim C9 — failed train leaves state untouched -/

/-- C9: when the embedding/index build raises, the Train handler shows the
failure as a message and leaves the session exactly as it was: the
previously built index (if any) and the previously recorded trained-file
list are untouched, and an untrained session stays untrained. -/
theorem trainButton_failure (build : List TextUnit → Except String Nat)
    (docs : List TextUnit) (filenames : List String) (st : ChatSession)
    (e : String) (hb : build docs = .error e) :
    trainButton build docs filenames st =
      (st, some ("Embedding error: " ++ e)) := by
  simp [trainButton, hb]

/-- Witness for C9: a failing build over a concrete trained session leaves
its index and trained-file list unchanged and reports the error. -/
theorem trainButton_failure_witness :
    trainButton (fun _ => Except.error "quota") [] ["new.pdf"]
      ⟨some 7, [], ["old.pdf"]⟩ =
      (⟨some 7, [], ["old.pdf"]⟩, some "Embedding error: quota") :=
  trainButton_failure (fun _ => Except.error "quota") [] ["new.pdf"]
    ⟨some 7, [], ["old.pdf"]⟩ "quota" rfl

/-! ## Claim C10 — no input validation in register_user -/

/-- C10: `register_user` validates nothing beyond username uniqueness: for
every username not already present — including the empty string — and
every password — including the empty string — it creates the user row,
whose stored password field is the bcrypt hash of the supplied password. -/
theorem register_user_no_validation (hashpw : String → String)
    (db : List UserRec) (un pw : String)
    (hfree : usernameExists db un = false) :
    register_user hashpw db un pw =
      .ok (db ++ [⟨db.length, un, hashpw pw⟩]) := by
  simp [register_user, hfree]

/-- Witness for C10: registering the empty username with the empty
password succeeds and stores the hash of the empty password. -/
theorem register_user_no_validation_witness :
    register_user (fun p => p ++ "#") [] "" "" = .ok [⟨0, "", "#"⟩] :=
  register_user_no_validation (fun p => p ++ "#") [] "" "" rfl

/-! ## Claim C1 — per-file failure isolation during ingestion -/

/-- Extractors on which every extraction fails: the three loaders raise
"load failed" and the Excel reader raises "read failed". -/
def failingExtractors : Extractors where
  loadPdf := fun _ => .error "load failed"
  loadCsv := fun _ => .error "load failed"
  loadDocx := fun _ => .error "load failed"
  readExcel := fun _ => .error "read failed"

/-- C1 counterexample: a batch of one CSV and one XLSX whose extractions
both fail does not yield an empty TextUnit sequence with two reported
errors — the CSV loader's exception is unhandled and aborts the whole
batch (`Except.error`), contradicting the claimed per-file isolation for
all four formats. -/
theorem ingest_failure_isolation_counterexample :
    ingest failingExtractors [⟨"a.csv"⟩, ⟨"b.xlsx"⟩] =
      Except.error "load failed" := rfl

/-- On a batch whose files are all `xlsx` and all fail extraction, the
loop reports one error per file, accumulates no document, and still
records every filename. -/
theorem ingestLoop_all_xlsx_fail (E : Extractors) (msg : String → String) :
    ∀ (files : List UploadedFile) (s : IngestState),
      (∀ f ∈ files, extOf f.name = "xlsx" ∧
        E.readExcel f.name = .error (msg f.name)) →
      ingestLoop E s files =
        .ok ⟨s.docs, s.filenames ++ files.map (fun f => f.name),
             s.errors ++ files.map (fun f => "Error reading Excel: " ++ msg f.name)⟩
  | [], s, _ => by simp [ingestLoop]
  | f :: fs, s, h => by
      have hf := h f (by simp)
      have hstep : ingestStep E s f =
          .ok { s with
                  filenames := s.filenames ++ [f.name],
                  errors := s.errors ++ ["Error reading Excel: " ++ msg f.name] } := by
        simp [ingestStep, hf.1, hf.2]
      have ih := ingestLoop_all_xlsx_fail E msg fs
        { s with
            filenames := s.filenames ++ [f.name],
            errors := s.errors ++ ["Error reading Excel: " ++ msg f.name] }
        (fun g hg => h g (List.mem_cons_of_mem f hg))
      simp only [ingestLoop, hstep, ih]
      simp

/-- Processing a batch splits at any prefix that did not abort: the loop
over the concatenation continues from the prefix's accumulated state. -/
theorem ingestLoop_append (E : Extractors) :
    ∀ (l1 : List UploadedFile) (s s1 : IngestState) (l2 : List UploadedFile),
      ingestLoop E s l1 = .ok s1 →
      ingestLoop E s (l1 ++ l2) = ingestLoop E s1 l2
  | [], s, s1, l2, h => by
      simp only [ingestLoop] at h
      injection h with h
      rw [List.nil_append, h]
  | f :: fs, s, s1, l2, h => by
      rw [List.cons_append]
      simp only [ingestLoop] at h ⊢
      cases hstep : ingestStep E s f with
      | ok s2 =>
          simp only [hstep] at h ⊢
          exact ingestLoop_append E fs s2 s1 l2 h
      | error e => simp [hstep] at h

/-- A file of one of the three unguarded formats (PDF, CSV, DOCX) whose
loader call raises makes the loop iteration itself raise — there is no
try/except around those branches (app.py lines 127-135). -/
theorem ingestStep_unguarded_failure (E : Extractors) (s : IngestState)
    (g : UploadedFile) (e : String)
    (h : (extOf g.name = "pdf" ∧ E.loadPdf g.name = .error e) ∨
         (extOf g.name = "csv" ∧ E.loadCsv g.name = .error e) ∨
         (extOf g.name = "docx" ∧ E.loadDocx g.name = .error e)) :
    ingestStep E s g = .error e := by
  rcases h with ⟨h1, h2⟩ | ⟨h1, h2⟩ | ⟨h1, h2⟩ <;> simp [ingestStep, h1, h2]

/-- C1 amended: failure isolation holds only for the XLSX format — a batch
whose files are all XLSX and all fail extraction yields an empty TextUnit
sequence plus one reported error per file without aborting; but an
extraction failure for a PDF, CSV or DOCX file, at any position the batch
reaches (i.e. after any prefix that itself did not abort), raises an
unhandled exception that aborts the whole batch. -/
theorem ingest_failure_isolation_amended (E : Extractors)
    (msg : String → String) (files : List UploadedFile)
    (hx : ∀ f ∈ files, extOf f.name = "xlsx" ∧
      E.readExcel f.name = .error (msg f.name)) :
    ingest E files =
      .ok ⟨[], files.map (fun f => f.name),
           files.map (fun f => "Error reading Excel: " ++ msg f.name)⟩ ∧
    (∀ (pre : List UploadedFile) (s1 : IngestState) (g : UploadedFile)
        (rest : List UploadedFile) (e : String),
      ingestLoop E ⟨[], [], []⟩ pre = .ok s1 →
      ((extOf g.name = "pdf" ∧ E.loadPdf g.name = .error e) ∨
       (extOf g.name = "csv" ∧ E.loadCsv g.name = .error e) ∨
       (extOf g.name = "docx" ∧ E.loadDocx g.name = .error e)) →
      ingest E (pre ++ g :: rest) = .error e) := by
  constructor
  · simpa [ingest] using
      ingestLoop_all_xlsx_fail E msg files ⟨[], [], []⟩ hx
  · intro pre s1 g rest e hpre hg
    have hstep := ingestStep_unguarded_failure E s1 g e hg
    have hsplit := ingestLoop_append E pre ⟨[], [], []⟩ s1 (g :: rest) hpre
    simp [ingest, hsplit, ingestLoop, hstep]

/-- Witness for C1 amended: two failing XLSX files produce an empty
document list, both filenames and two per-file errors; a failing CSV file
in the middle of a batch, a failing PDF file at the head, and a failing
DOCX file after an XLSX file each abort their batch. -/
theorem ingest_failure_isolation_amended_witness :
    ingest failingExtractors [⟨"a.xlsx"⟩, ⟨"b.xlsx"⟩] =
      Except.ok ⟨[], ["a.xlsx", "b.xlsx"],
        ["Error reading Excel: read failed", "Error reading Excel: read failed"]⟩ ∧
    ingest failingExtractors [⟨"a.xlsx"⟩, ⟨"c.csv"⟩, ⟨"b.xlsx"⟩] =
      Except.error "load failed" ∧
    ingest failingExtractors [⟨"d.pdf"⟩] = Except.error "load failed" ∧
    ingest failingExtractors [⟨"a.xlsx"⟩, ⟨"e.docx"⟩] =
      Except.error "load failed" := by
  have h := ingest_failure_isolation_amended failingExtractors
    (fun _ => "read failed") [⟨"a.xlsx"⟩, ⟨"b.xlsx"⟩]
    (by intro f hf; fin_cases hf <;> exact ⟨by decide, rfl⟩)
  refine ⟨h.1, ?_, ?_, ?_⟩
  · exact h.2 [⟨"a.xlsx"⟩] ⟨[], ["a.xlsx"], ["Error reading Excel: read failed"]⟩
      ⟨"c.csv"⟩ [⟨"b.xlsx"⟩] "load failed" rfl (Or.inr (Or.inl ⟨by decide, rfl⟩))
  · exact h.2 [] ⟨[], [], []⟩ ⟨"d.pdf"⟩ [] "load failed" rfl
      (Or.inl ⟨by decide, rfl⟩)
  · exact h.2 [⟨"a.xlsx"⟩] ⟨[], ["a.xlsx"], ["Error reading Excel: read failed"]⟩
      ⟨"e.docx"⟩ [] "load failed" rfl (Or.inr (Or.inr ⟨by decide, rfl⟩))

/-! ## Claim C4 — recorded trained-file list -/

/-- Every non-aborting iteration of the ingestion loop appends the file's
name to the filename accumulator — whether or not its extraction
succeeded (the append at app.py line 121 precedes the dispatch). -/
theorem ingestStep_filenames (E : Extractors) (s : IngestState)
    (f : UploadedFile) (s' : IngestState)
    (h : ingestStep E s f = .ok s') :
    s'.filenames = s.filenames ++ [f.name] := by
  unfold ingestStep at h
  dsimp only at h
  repeat' split at h
  all_goals cases h
  all_goals rfl

/-- A completed ingestion records every uploaded file's name, in upload
order. -/
theorem ingestLoop_filenames (E : Extractors) :
    ∀ (files : List UploadedFile) (s s' : IngestState),
      ingestLoop E s files = .ok s' →
      s'.filenames = s.filenames ++ files.map (fun f => f.name)
  | [], s, s', h => by
      simp only [ingestLoop] at h
      injection h with h
      simp [← h]
  | f :: fs, s, s', h => by
      unfold ingestLoop at h
      cases hstep : ingestStep E s f with
      | ok s1 =>
          rw [hstep] at h
          have h1 := ingestStep_filenames E s f s1 hstep
          have h2 := ingestLoop_filenames E fs s1 s' h
          simp [h2, h1]
      | error e => rw [hstep] at h; cases h

/-- C4 counterexample: a batch consisting of one XLSX file whose
extraction fails completes ingestion with that filename recorded, and a
subsequent successful train stores it as the trained-file list — even
though the set of successfully processed files is empty, so the recorded
list is not the list of successfully processed filenames. -/
theorem trained_file_list_counterexample :
    ingest failingExtractors [⟨"b.xlsx"⟩] =
      Except.ok ⟨[], ["b.xlsx"], ["Error reading Excel: read failed"]⟩ ∧
    (trainButton (fun _ => Except.ok 0) [] ["b.xlsx"]
        ⟨none, [], []⟩).1.uploaded_files_info = ["b.xlsx"] ∧
    (["b.xlsx"] : List String) ≠ [] := by
  refine ⟨rfl, rfl, by decide⟩

/-- C4 amended: after a successful training action over an ingested batch,
the recorded trained-file list contains the names of all uploaded files of
the batch, in upload order — including any XLSX files whose extraction
failed (only their documents are missing; their names are still
recorded). -/
theorem trained_file_list_amended (E : Extractors)
    (files : List UploadedFile) (s : IngestState)
    (hok : ingest E files = .ok s)
    (build : List TextUnit → Except String Nat) (idx : Nat)
    (hb : build s.docs = .ok idx) (st : ChatSession) :
    (trainButton build s.docs s.filenames st).1.uploaded_files_info =
      files.map (fun f => f.name) := by
  have hfn := ingestLoop_filenames E files ⟨[], [], []⟩ s hok
  simp only [trainButton, hb]
  simpa using hfn

/-- Witness for C4 amended: training after ingesting one failing XLSX file
records exactly that file's name. -/
theorem trained_file_list_amended_witness :
    (trainButton (fun _ => Except.ok 0) [] ["b.xlsx"]
        ⟨none, [], []⟩).1.uploaded_files_info = ["b.xlsx"] := by
  have h := trained_file_list_amended failingExtractors [⟨"b.xlsx"⟩]
    ⟨[], ["b.xlsx"], ["Error reading Excel: read failed"]⟩ rfl
    (fun _ => Except.ok 0) 0 rfl ⟨none, [], []⟩
  simpa using h

/-! ## Claim C2 — failed answer generation -/

/-- C2 counterexample: when the generation call raises, the transcript is
not left unchanged — the user message has already been appended before the
try block, so a session whose transcript was empty ends the failed action
with one message in it. -/
theorem chat_generation_failure_counterexample :
    (chatTab (fun _ => Except.error "boom") 1 0 ⟨some 0, [], []⟩ []
        (some "hi")).1.messages = [⟨"user", "hi"⟩] ∧
    ([(⟨"user", "hi"⟩ : Message)] : List Message) ≠ [] := by
  exact ⟨rfl, by decide⟩

/-- C2 amended: when the generation call raises in the Trained state, the
action aborts with a user-visible error message, no Query Log record is
created, the index is unchanged, no assistant message is appended — but
the user's message has already been appended to the transcript, which is
the only session-state change. -/
theorem chat_generation_failure_amended (gen : String → Except String String)
    (userId now idx : Nat) (st : ChatSession) (log : List QueryRec)
    (prompt e : String) (hqa : st.qa = some idx) (hp : prompt ≠ "")
    (hg : gen prompt = .error e) :
    chatTab gen userId now st log (some prompt) =
      ({ st with messages := st.messages ++ [⟨"user", prompt⟩] }, log,
       some ("Failed to respond: " ++ e)) := by
  simp [chatTab, hqa, hp, hg]

/-- Witness for C2 amended: a concrete failing generation appends exactly
the user message, changes nothing else, and reports the failure. -/
theorem chat_generation_failure_amended_witness :
    chatTab (fun _ => Except.error "boom") 1 0 ⟨some 0, [], ["f.pdf"]⟩ []
        (some "hi") =
      (⟨some 0, [⟨"user", "hi"⟩], ["f.pdf"]⟩, [],
       some "Failed to respond: boom") := by
  have h := chat_generation_failure_amended (fun _ => Except.error "boom")
    1 0 0 ⟨some 0, [], ["f.pdf"]⟩ [] "hi" "boom" rfl (by decide) rfl
  simpa using h

/-! ## Claim C3 — logout -/

/-- C3 counterexample: logging out of a session holding an index, a
transcript and a trained-file list leaves all three keys present with
their old values — none of them is removed or reset to its empty
default. -/
theorem logout_state_counterexample :
    (logout ⟨some 1, some (some 0), some [⟨"user", "hi"⟩], some ["f.pdf"]⟩).qa
        = some (some 0) ∧
    (logout ⟨some 1, some (some 0), some [⟨"user", "hi"⟩], some ["f.pdf"]⟩).messages
        = some [⟨"user", "hi"⟩] ∧
    (logout ⟨some 1, some (some 0), some [⟨"user", "hi"⟩], some ["f.pdf"]⟩).uploaded_files_info
        = some ["f.pdf"] ∧
    (some (some 0) : Option (Option Nat)) ≠ none ∧
    (some (some 0) : Option (Option Nat)) ≠ some none ∧
    (some [(⟨"user", "hi"⟩ : Message)] : Option (List Message)) ≠ none ∧
    (some [(⟨"user", "hi"⟩ : Message)] : Option (List Message)) ≠ some [] := by
  refine ⟨rfl, rfl, rfl, by decide, by decide, by decide, by decide⟩

/-- C3 amended: the logout action only removes the `user` key from the
session store; the current index, the transcript and the trained-file
list are kept unchanged, and because the defaults initialiser only fills
absent keys, they survive even a subsequent login as-is. -/
theorem logout_amended (s : AppSession) (u2 : Nat) :
    (logout s).user = none ∧
    (logout s).qa = s.qa ∧
    (logout s).messages = s.messages ∧
    (logout s).uploaded_files_info = s.uploaded_files_info ∧
    (∀ v, s.qa = some v →
      (initSessionDefaults { logout s with user := some u2 }).qa = some v) ∧
    (∀ m, s.messages = some m →
      (initSessionDefaults { logout s with user := some u2 }).messages = some m) ∧
    (∀ l, s.uploaded_files_info = some l →
      (initSessionDefaults
        { logout s with user := some u2 }).uploaded_files_info = some l) := by
  refine ⟨rfl, rfl, rfl, rfl, fun v hv => ?_, fun m hm => ?_, fun l hl => ?_⟩
  · simp [logout, initSessionDefaults, hv]
  · simp [logout, initSessionDefaults, hm]
  · simp [logout, initSessionDefaults, hl]

/-- Witness for C3 amended: after logging out of a concrete populated
session, the user key is gone, and a subsequent login by another user
still sees the previous transcript. -/
theorem logout_amended_witness :
    (logout ⟨some 1, some (some 0), some [⟨"user", "hi"⟩],
        some ["f.pdf"]⟩).user = none ∧
    (initSessionDefaults
        { logout ⟨some 1, some (some 0), some [⟨"user", "hi"⟩], some ["f.pdf"]⟩
          with user := some 2 }).messages = some [⟨"user", "hi"⟩] := by
  have h := logout_amended
    ⟨some 1, some (some 0), some [⟨"user", "hi"⟩], some ["f.pdf"]⟩ 2
  exact ⟨h.1, h.2.2.2.2.2.1 [⟨"user", "hi"⟩] rfl⟩

/-! ## Claim C6 — per-user history -/

/-- C6: the history query returns exactly the Query rows whose user id is
the logged-in user's (it is a permutation of the filtered table, so a
second user's records never appear), ordered by timestamp descending;
and after appending (q1,a1) then (q2,a2) for a user, with the second
timestamp later, the user's history is [(q2,a2), (q1,a1)]. -/
theorem history_spec (log log0 : List QueryRec) (uid : Nat)
    (q1 a1 q2 a2 : String) (t1 t2 : Nat) :
    (history log uid).Perm (log.filter (fun q => q.user_id = uid)) ∧
    (∀ r, r ∈ history log uid ↔ r ∈ log ∧ r.user_id = uid) ∧
    List.Sorted tsDesc (history log uid) ∧
    ((∀ r ∈ log0, r.user_id ≠ uid) → t1 < t2 →
      history (log0 ++ [⟨q1, a1, t1, uid⟩, ⟨q2, a2, t2, uid⟩]) uid =
        [⟨q2, a2, t2, uid⟩, ⟨q1, a1, t1, uid⟩]) := by
  refine ⟨List.perm_insertionSort tsDesc _, fun r => ?_,
    List.sorted_insertionSort tsDesc _, fun h0 ht => ?_⟩
  · simp [history, List.mem_filter]
  · have hnil : log0.filter (fun q => q.user_id = uid) = [] := by
      rw [List.filter_eq_nil_iff]
      intro r hr
      simpa using h0 r hr
    have hts : ¬ tsDesc ⟨q1, a1, t1, uid⟩ ⟨q2, a2, t2, uid⟩ := by
      simp only [tsDesc]
      omega
    simp [history, List.filter_append, hnil, List.insertionSort,
      List.orderedInsert, hts]

/-- Witness for C6: with two records for user 1 at increasing timestamps,
the history is most-recent-first. -/
theorem history_spec_witness :
    history [⟨"q1", "a1", 1, 1⟩, ⟨"q2", "a2", 2, 1⟩] 1 =
      [⟨"q2", "a2", 2, 1⟩, ⟨"q1", "a1", 1, 1⟩] := by
  have h := (history_spec [] [] 1 "q1" "a1" "q2" "a2" 1 2).2.2.2
    (by simp) (by decide)
  simpa using h
